import Mathlib

/-!
# Verification of the metrics-aggregation core of the ctodashboard repository

Shallow embedding of `backend/metrics_service.py` (the four service adapters
`GitHubMetrics`, `JiraMetrics`, `AWSMetrics`, `RailwayMetrics` and the
`MetricsAggregator`) and of `services/embedded/aws_metrics.py`
(`EmbeddedAWSMetrics`).  External HTTP traffic is modelled by explicit
"upstream" oracles passed to each adapter: a `Fetch α` value is either a raised
transport exception (`exn`) or a received response (`resp`).  Python floats are
modelled by exact rationals (`ℚ`); `round(x, n)` and `"%.1f"` formatting use
round-half-to-even, matching CPython's behaviour on exactly representable
values.  `datetime.now()` is modelled by an explicit `PyTime` value threaded
into the calls that read the clock.
-/

namespace CTODash

/-- Python truthiness of an `os.getenv` result: `None` and `""` are falsy. -/
def pyTruthy : Option String → Bool
  | none => false
  | some s => s != ""

/-- Round half to even to an integer (CPython `round` tie-breaking). -/
def roundHalfEven (q : ℚ) : ℤ :=
  if q - ⌊q⌋ < 1/2 then ⌊q⌋
  else if 1/2 < q - ⌊q⌋ then ⌊q⌋ + 1
  else if 2 ∣ ⌊q⌋ then ⌊q⌋ else ⌊q⌋ + 1

/-- Python `round(x, 1)` over exact rationals. -/
def round1 (q : ℚ) : ℚ := (roundHalfEven (q * 10) : ℚ) / 10

/-- Python `round(x, 2)` over exact rationals. -/
def round2 (q : ℚ) : ℚ := (roundHalfEven (q * 100) : ℚ) / 100

/-- Python `f"{x:.1f}"` formatting (one decimal digit) over exact rationals. -/
def fmt1 (q : ℚ) : String :=
  if roundHalfEven (q * 10) < 0 then
    "-" ++ toString ((roundHalfEven (q * 10)).natAbs / 10) ++ "." ++
      toString ((roundHalfEven (q * 10)).natAbs % 10)
  else
    toString ((roundHalfEven (q * 10)).natAbs / 10) ++ "." ++
      toString ((roundHalfEven (q * 10)).natAbs % 10)

/-- One step of Python `max(items, key=lambda x: x[1])`: the accumulator is
replaced only when the candidate's key is strictly greater. -/
def pyMaxStep (acc y : String × ℚ) : String × ℚ :=
  if acc.2 < y.2 then y else acc

/-- Python `max(service_costs.items(), key=lambda x: x[1])` on a non-empty
list (`none` on the empty list, where Python would raise). -/
def pyMax : List (String × ℚ) → Option (String × ℚ)
  | [] => none
  | x :: xs => some (xs.foldl pyMaxStep x)

/-- An upstream interaction: either the request raised (modelling a Python
exception caught by the adapter's `try`/`except`) or a response arrived. -/
inductive Fetch (α : Type) where
  | exn (msg : String)
  | resp (v : α)
deriving DecidableEq

/-! ## GitHubMetrics (`backend/metrics_service.py` lines 16-79) -/

/-- Fields of the parsed repository-metadata JSON that the adapter reads. -/
structure RepoData where
  open_issues_count : Nat
  stargazers_count : Nat
  language : String
  updated_at : String
deriving DecidableEq

/-- Upstream responses for one repository's three calls: metadata
(status, body text, parsed data), commits-since-30d (status, number of
commits), pull requests (status, number of PRs). -/
structure RepoUpstream where
  repoResp : Fetch (Nat × String × RepoData)
  commitsResp : Fetch (Nat × Nat)
  prsResp : Fetch (Nat × Nat)
deriving DecidableEq

/-- Embedding of `GitHubMetrics.__init__`: configuration read from the environment. -/
structure GitHubCfg where
  token : Option String
  base_url : String
  org : String
deriving DecidableEq

/-- Result dict of `get_repo_metrics`: a plain `{"error": ...}` dict, the
non-200 metadata error dict with its debug fields, or the success payload. -/
inductive RepoMetrics where
  | failure (error : String)
  | failureDebug (error debug_url : String) (debug_token_length : Nat)
      (debug_org debug_repo : String)
  | success (repo_name : String)
      (commits_last_30_days total_prs open_issues stars : Nat)
      (language last_updated : String)
deriving DecidableEq

/-- Embedding of `org or self.org`: the call-site organization wins when truthy. -/
def effOrg (g : GitHubCfg) (org : String) : String :=
  if org != "" then org else g.org

/-- Embedding of `GitHubMetrics.get_repo_metrics(repo, org)`.  `up` maps a repository name
to that repository's upstream responses in the current world. -/
def get_repo_metrics (g : GitHubCfg) (up : String → RepoUpstream)
    (repo : String) (org : String) : RepoMetrics :=
  if !(pyTruthy g.token) then .failure ("GitHub token not configured")
  else
    let current_org := effOrg g org
    if current_org = "" then .failure ("GitHub organization not provided")
    else
      match (up repo).repoResp with
      | .exn e => .failure ("GitHub API error: " ++ e)
      | .resp (status, text, repo_data) =>
        if status ≠ 200 then
          .failureDebug ("GitHub API returned " ++ toString status ++ ": " ++ text)
            (g.base_url ++ "/repos/" ++ current_org ++ "/" ++ repo)
            (g.token.getD "").length current_org repo
        else
          match (up repo).commitsResp with
          | .exn e => .failure ("GitHub API error: " ++ e)
          | .resp (cstatus, ccount) =>
            match (up repo).prsResp with
            | .exn e => .failure ("GitHub API error: " ++ e)
            | .resp (pstatus, pcount) =>
              .success repo (if cstatus = 200 then ccount else 0)
                (if pstatus = 200 then pcount else 0)
                repo_data.open_issues_count repo_data.stargazers_count
                repo_data.language repo_data.updated_at

/-! ## JiraMetrics (`backend/metrics_service.py` lines 82-141) -/

/-- Embedding of `JiraMetrics.__init__`: configuration read from the environment. -/
structure JiraCfg where
  base_url : Option String
  email : Option String
  token : Option String
  project_key : String
deriving DecidableEq

/-- Upstream responses for the two Jira calls: project metadata
(status, parsed project name) and the 30-day issue search (status, body text,
issues — each issue reduced to whether its `resolutiondate` field is set). -/
structure JiraUpstream where
  projectResp : Fetch (Nat × String)
  searchResp : Fetch (Nat × String × List Bool)
deriving DecidableEq

/-- Result dict of `get_project_metrics`. -/
inductive JiraResult where
  | failure (error : String)
  | success (project_key : String) (total_issues resolved_issues : Nat)
      (resolution_rate : ℚ) (project_name : String)
deriving DecidableEq

/-- Embedding of `round(resolved / total * 100, 1) if total > 0 else 0`
(`backend/metrics_service.py` line 136). -/
def resolutionRate (total resolved : Nat) : ℚ :=
  if 0 < total then round1 ((resolved : ℚ) / (total : ℚ) * 100) else 0

/-- Embedding of `project_key or self.project_key`. -/
def effKey (j : JiraCfg) (project_key : String) : String :=
  if project_key != "" then project_key else j.project_key

/-- Embedding of `JiraMetrics.get_project_metrics(project_key)`. -/
def get_project_metrics (j : JiraCfg) (u : JiraUpstream)
    (project_key : String) : JiraResult :=
  if !(pyTruthy j.base_url && pyTruthy j.email && pyTruthy j.token) then
    .failure ("Jira credentials not configured")
  else
    let current_key := effKey j project_key
    if current_key = "" then .failure ("Jira project key not provided")
    else
      match u.projectResp with
      | .exn e => .failure ("Jira API error: " ++ e)
      | .resp (pstatus, pname) =>
        match u.searchResp with
        | .exn e => .failure ("Jira API error: " ++ e)
        | .resp (sstatus, stext, issues) =>
          if sstatus ≠ 200 then
            .failure ("Jira API returned " ++ toString sstatus ++ ": " ++ stext)
          else
            .success current_key issues.length (issues.filter id).length
              (resolutionRate issues.length (issues.filter id).length)
              (if pstatus = 200 then pname else "Unknown")

/-! ## AWSMetrics (`backend/metrics_service.py` lines 144-605) -/

/-- Embedding of `AWSMetrics.__init__`: credentials read from the environment. -/
structure AwsCfg where
  access_key : Option String
  secret_key : Option String
  region : String
deriving DecidableEq

/-- Parsed Cost Explorer data: the daily-granularity series (date, cost) in
chronological order and the monthly per-service groups. -/
structure CeData where
  dailyCosts : List (String × ℚ)
  serviceGroups : List (String × ℚ)
deriving DecidableEq

/-- Upstream data for one AWS report.  The five resource sub-reports
(`_get_lightsail_details` … `_get_s3_details`) catch all of their own
exceptions and return a dict either way; no claim inspects their internals,
so each is abstracted as an opaque payload delivered by the world. -/
structure AwsUpstream where
  ce : Fetch CeData
  lightsailReport : String
  ec2Report : String
  rdsReport : String
  route53Report : String
  s3Report : String
deriving DecidableEq

/-- Embedding of `sum(d['cost'] for d in l if d['cost'] > 0)`: only strictly positive
entries contribute (`backend/metrics_service.py` lines 238-239). -/
def posSum : List ℚ → ℚ
  | [] => 0
  | c :: rest => if 0 < c then c + posSum rest else posSum rest

/-- Embedding of `daily_costs[-7:]`. -/
def recentWindow (l : List ℚ) : List ℚ := l.drop (l.length - 7)

/-- Embedding of `daily_costs[-14:-7]`. -/
def previousWindow (l : List ℚ) : List ℚ :=
  (l.take (l.length - 7)).drop (l.length - 14)

/-- Trend of `AWSMetrics._get_cost_analysis` (lines 238-240): compare the
positive-entry sums of the two 7-day windows; strictly greater means
`"increasing"`, anything else `"decreasing"`. -/
def weeklyTrend (dailyCosts : List ℚ) : String :=
  if posSum (recentWindow dailyCosts) > posSum (previousWindow dailyCosts)
  then "increasing" else "decreasing"

/-- Embedding of `dict(sorted(service_costs.items(), key=lambda x: x[1], reverse=True))`. -/
def sortByCostDesc (l : List (String × ℚ)) : List (String × ℚ) :=
  l.mergeSort (fun a b => decide (b.2 ≤ a.2))

/-- The dict built by `_get_cost_analysis` (lines 242-251). -/
structure CostAnalysis where
  total_cost_30_days : ℚ
  daily_average : ℚ
  weekly_trend : String
  recent_7_days_cost : ℚ
  previous_7_days_cost : ℚ
  service_breakdown : List (String × ℚ)
  daily_costs : List (String × ℚ)
  period : String
deriving DecidableEq

/-- The wall-clock values the Python code derives from `datetime.now()`:
the ISO timestamp, today as `%Y-%m-%d`, and today minus 30 days. -/
structure PyTime where
  iso : String
  day : String
  dayMinus30 : String
deriving DecidableEq

/-- Embedding of `AWSMetrics._get_cost_analysis` (lines 194-254). -/
def getCostAnalysis (t : PyTime) (ce : Fetch CeData) : Fetch CostAnalysis :=
  match ce with
  | .exn e => .exn ("Cost analysis error: " ++ e)
  | .resp d =>
    let costs := d.dailyCosts.map (·.2)
    let total := (d.serviceGroups.map (·.2)).sum
    .resp
      { total_cost_30_days := round2 total
        daily_average := round2 (total / 30)
        weekly_trend := weeklyTrend costs
        recent_7_days_cost := round2 (posSum (recentWindow costs))
        previous_7_days_cost := round2 (posSum (previousWindow costs))
        service_breakdown := sortByCostDesc d.serviceGroups
        daily_costs := d.dailyCosts.drop (d.dailyCosts.length - 7)
        period := t.dayMinus30 ++ " to " ++ t.day }

/-- Embedding of `AWSMetrics._get_cost_optimization_recommendations` (lines 520-549),
a fixed list. -/
def costOptimizationRecommendations : List String :=
  ["🎯 CTO COST OPTIMIZATION PRIORITIES:",
   "",
   "💰 IMMEDIATE ACTIONS (0-7 days):",
   "• Review all stopped EC2/Lightsail instances - terminate if unused",
   "• Check for unattached EBS volumes and unused Elastic IPs",
   "• Verify Route 53 hosted zones are all needed ($0.50/month each)",
   "",
   "📊 SHORT TERM (1-4 weeks):",
   "• Analyze CloudWatch metrics for underutilized instances",
   "• Consider Reserved Instances for steady workloads (up to 75% savings)",
   "• Implement S3 lifecycle policies for infrequent access storage",
   "• Review data transfer costs and optimize architecture",
   "",
   "🔄 ONGOING MONITORING:",
   "• Set up AWS Budget alerts for cost anomalies",
   "• Monthly review of AWS Cost Explorer recommendations",
   "• Quarterly rightsizing analysis for all compute resources",
   "• Track cost per project/environment with proper tagging",
   "",
   "🚨 RED FLAGS TO INVESTIGATE:",
   "• Instances running 24/7 that could be scheduled",
   "• High data transfer costs (review architecture)",
   "• Multiple environments with similar configurations",
   "• Services with consistently low utilization (<20%)"]

/-- The response dict of `AWSMetrics.get_cost_metrics` (lines 551-605):
either an error dict or the backward-compatible shape with the nested
`cto_insights` data flattened into fields. -/
inductive AwsResult where
  | failure (error : String)
  | success (total_cost_last_30_days : ℚ) (currency period : String)
      (top_services : List (String × ℚ)) (weekly_trend : String)
      (daily_average recent_7_days_cost previous_7_days_cost : ℚ)
      (daily_costs : List (String × ℚ))
      (route53 s3 lightsail ec2 rds : String)
      (optimization_recommendations : List String)
      (detailed_service_breakdown : List (String × ℚ))
deriving DecidableEq

/-- Embedding of `AWSMetrics.get_cost_metrics`.  The comprehensive report only propagates
an error when the cost-analysis part errors (the resource sub-reports never
raise), so the error path reduces to the cost-analysis error. -/
def get_cost_metrics (a : AwsCfg) (t : PyTime) (u : AwsUpstream) : AwsResult :=
  if !(pyTruthy a.access_key && pyTruthy a.secret_key) then
    .failure ("AWS credentials not configured")
  else
    match getCostAnalysis t u.ce with
    | .exn e => .failure e
    | .resp ca =>
      .success ca.total_cost_30_days "USD" ca.period
        (ca.service_breakdown.take 5) ca.weekly_trend ca.daily_average
        ca.recent_7_days_cost ca.previous_7_days_cost ca.daily_costs
        u.route53Report u.s3Report u.lightsailReport u.ec2Report u.rdsReport
        costOptimizationRecommendations ca.service_breakdown

/-! ## EmbeddedAWSMetrics (`services/embedded/aws_metrics.py`) -/

/-- Trend of `EmbeddedAWSMetrics.get_real_cost_metrics` (lines 85-91):
three-valued with a ±10% dead band around the previous week's sum. -/
def embeddedTrend (recent previous : ℚ) : String :=
  if recent > previous * (11/10) then "increasing"
  else if recent < previous * (9/10) then "decreasing"
  else "stable"

/-- The two weekly sums of `get_real_cost_metrics` (lines 82-83): plain sums
(no positivity filter), with the previous week defined as `0` when fewer than
14 daily points exist. -/
def embeddedWeeklyTrend (dailyCosts : List ℚ) : String :=
  let recent := (dailyCosts.drop (dailyCosts.length - 7)).sum
  let previous :=
    if 14 ≤ dailyCosts.length then
      ((dailyCosts.take (dailyCosts.length - 7)).drop (dailyCosts.length - 14)).sum
    else 0
  embeddedTrend recent previous

/-- The static part of `EmbeddedAWSMetrics._get_cost_recommendations`
(lines 187-204). -/
def embeddedBaseRecommendations : List String :=
  ["🎯 CTO COST OPTIMIZATION PRIORITIES:",
   "",
   "💰 IMMEDIATE ACTIONS (0-7 days):",
   "• Review all stopped EC2/Lightsail instances - terminate if unused",
   "• Check for unattached EBS volumes and unused Elastic IPs",
   "• Verify Route 53 hosted zones are all needed ($0.50/month each)",
   "",
   "📊 SHORT TERM (1-4 weeks):",
   "• Analyze CloudWatch metrics for underutilized instances",
   "• Consider Reserved Instances for steady workloads (up to 75% savings)",
   "• Implement S3 lifecycle policies for infrequent access storage",
   "",
   "🔄 ONGOING MONITORING:",
   "• Set up AWS Budget alerts for cost anomalies",
   "• Monthly review of AWS Cost Explorer recommendations",
   "• Quarterly rightsizing analysis for all compute resources"]

/-- Embedding of `EmbeddedAWSMetrics._get_cost_recommendations(total_cost, service_costs)`
(lines 185-214): the static list, plus a targeted callout when the single
most expensive service's cost strictly exceeds `total_cost * 0.3`.
Python's `top[1]/total_cost*100` raises on `total_cost = 0`; rational
division by zero is total here, so theorems about the callout assume a
positive total. -/
def embeddedCostRecommendations (total_cost : ℚ)
    (service_costs : List (String × ℚ)) : List String :=
  match pyMax service_costs with
  | none => embeddedBaseRecommendations
  | some top =>
    if top.2 > total_cost * (3/10) then
      embeddedBaseRecommendations ++
        ["",
         "🔍 TOP SERVICE FOCUS: " ++ top.1 ++ " accounts for " ++
           fmt1 (top.2 / total_cost * 100) ++ "% of costs",
         "• Review " ++ top.1 ++ " usage patterns and optimization opportunities"]
    else embeddedBaseRecommendations

/-! ## RailwayMetrics (`backend/metrics_service.py` lines 608-759) -/

/-- Embedding of `RailwayMetrics.__init__`: configuration read from the environment at
construction time (in particular `RAILWAY_PROJECT_ID` is read once, here). -/
structure RailwayCfg where
  token : Option String
  base_url : String
  project_id : Option String
deriving DecidableEq

/-- Outcome of the GraphQL POST once a response arrived: non-200 status,
unparseable JSON body, a GraphQL `errors` field, or parsed data
(project name plus deployments as (status, createdAt) pairs). -/
inductive GqlData where
  | nonOk (status : Nat) (text : String)
  | badJson (msg : String)
  | gqlErrors (msg : String)
  | ok (project_name : String) (deployments : List (String × String))
deriving DecidableEq

/-- Upstream responses for the Railway adapter: the probe GET against
`/api/projects` (status) and the full GraphQL POST. -/
structure RailwayUpstream where
  probe : Fetch Nat
  graphql : Fetch GqlData
deriving DecidableEq

/-- The fallback dict built by `RailwayMetrics._get_fallback_metrics`
(lines 658-681). -/
structure RailwayFallback where
  status : String
  error : String
  project_id : Option String
  attempted_endpoint : String
  api_status : String
  suggestion : String
  fallback_project_name : String
  next_steps : List String
  additional_error : Option String
deriving DecidableEq

/-- Result of `get_deployment_metrics`: the missing-token error dict, the
structured fallback payload, or the GraphQL success payload. -/
inductive RailwayResult where
  | missingToken (error status : String)
  | fallback (payload : RailwayFallback)
  | success (project_name : String) (total_deployments successful_deployments : Nat)
      (success_rate : ℚ) (last_deployment : Option String)
deriving DecidableEq

/-- Python `str(x)` on the optional project id (`f"Project: {...}"` renders
`None` as `"None"`). -/
def pyStrOpt : Option String → String
  | none => "None"
  | some s => s

/-- Embedding of `RailwayMetrics._get_fallback_metrics(additional_error)`. -/
def mkFallback (r : RailwayCfg) (additional_error : Option String) :
    RailwayFallback :=
  { status := "api_unavailable"
    error := "Railway API endpoints are currently unavailable (all return 404)"
    project_id := r.project_id
    attempted_endpoint := r.base_url
    api_status := "As of August 2024, Railway appears to have deprecated public API access"
    suggestion := "Check Railway dashboard manually or use Railway CLI for deployment status"
    fallback_project_name := "Project: " ++ pyStrOpt r.project_id
    next_steps :=
      ["1. Check Railway\x27s official documentation for API changes",
       "2. Verify if Railway has moved to CLI-only approach",
       "3. Consider using Railway CLI in deployment pipeline",
       "4. Check if token needs to be regenerated"]
    additional_error := additional_error }

/-- Embedding of `RailwayMetrics._attempt_graphql_query` (lines 683-759). -/
def attempt_graphql_query (r : RailwayCfg) (g : Fetch GqlData) : RailwayResult :=
  match g with
  | .exn e => .fallback (mkFallback r (some ("GraphQL query failed: " ++ e)))
  | .resp (.nonOk s t) =>
    .fallback (mkFallback r
      (some ("GraphQL endpoint returned " ++ toString s ++ ": " ++ t.take 100)))
  | .resp (.badJson m) =>
    .fallback (mkFallback r (some ("Invalid JSON response: " ++ m)))
  | .resp (.gqlErrors m) =>
    .fallback (mkFallback r (some ("GraphQL errors: " ++ m)))
  | .resp (.ok name deployments) =>
    let total := deployments.length
    let succ := (deployments.filter (fun d => d.1 == "SUCCESS")).length
    .success name total succ
      (if 0 < total then round1 ((succ : ℚ) / (total : ℚ) * 100) else 0)
      (deployments.head?.map (·.2))

/-- Embedding of `RailwayMetrics.get_deployment_metrics` (lines 625-656): missing token
short-circuits; otherwise a cheap probe GET decides between the full GraphQL
attempt (probe status ≠ 404) and the structured fallback (probe 404 or a
probe exception). -/
def get_deployment_metrics (r : RailwayCfg) (u : RailwayUpstream) :
    RailwayResult :=
  if !(pyTruthy r.token) then
    .missingToken ("Railway token not configured") ("missing_token")
  else
    match u.probe with
    | .exn e => .fallback (mkFallback r (some ("Connection error: " ++ e)))
    | .resp status =>
      if status ≠ 404 then attempt_graphql_query r u.graphql
      else .fallback (mkFallback r none)

/-! ## MetricsAggregator (`backend/metrics_service.py` lines 762-807) -/

/-- The `github` entry of an assignment's `metrics_config`. -/
structure GithubAssignCfg where
  enabled : Bool
  repos : List String
  org : String
deriving DecidableEq

/-- The `jira` entry of an assignment's `metrics_config`. -/
structure JiraAssignCfg where
  enabled : Bool
  project_key : String
deriving DecidableEq

/-- The `aws` entry of an assignment's `metrics_config`. -/
structure AwsAssignCfg where
  enabled : Bool
deriving DecidableEq

/-- The `railway` entry of an assignment's `metrics_config`. -/
structure RailwayAssignCfg where
  enabled : Bool
  project_id : String
deriving DecidableEq

/-- An `assignment_config` dict as read by `get_all_metrics`: the id
(`.get("id", "unknown")`) and the four `metrics_config` entries. -/
structure AssignmentConfig where
  id : Option String
  github : GithubAssignCfg
  jira : JiraAssignCfg
  aws : AwsAssignCfg
  railway : RailwayAssignCfg
deriving DecidableEq

/-- The external world at one instant: every upstream response each adapter
could receive. -/
structure WorldData where
  github : String → RepoUpstream
  jira : JiraUpstream
  aws : AwsUpstream
  railway : RailwayUpstream

/-- The mutable process environment; only `RAILWAY_PROJECT_ID` is ever
written by the core. -/
structure Env where
  railway_project_id : Option String
deriving DecidableEq

/-- Embedding of `MetricsAggregator.__init__`: the four adapter instances, each holding
the configuration it read from the environment at construction time. -/
structure MetricsAggregator where
  github : GitHubCfg
  jira : JiraCfg
  aws : AwsCfg
  railway : RailwayCfg
deriving DecidableEq

/-- The report dict built by `get_all_metrics`: `timestamp` and
`assignment_id` always, and one optional slot per service. -/
structure Report where
  timestamp : String
  assignment_id : String
  github : Option (List RepoMetrics)
  jira : Option JiraResult
  aws : Option AwsResult
  railway : Option RailwayResult
deriving DecidableEq

/-- Embedding of `MetricsAggregator.get_all_metrics(assignment_config)`.  `w` gives the
world as seen at a wall-clock instant; `env` is the process environment,
returned alongside the report because the railway branch writes
`RAILWAY_PROJECT_ID` into it (the written value is never read back: the
railway adapter uses the project id captured at construction). -/
def get_all_metrics (m : MetricsAggregator) (cfg : AssignmentConfig)
    (env : Env) (w : PyTime → WorldData) (t : PyTime) : Report × Env :=
  let d := w t
  let report : Report :=
    { timestamp := t.iso
      assignment_id := cfg.id.getD "unknown"
      github :=
        if cfg.github.enabled then
          some (cfg.github.repos.map
            (fun repo => get_repo_metrics m.github d.github repo cfg.github.org))
        else none
      jira :=
        if cfg.jira.enabled then
          some (get_project_metrics m.jira d.jira cfg.jira.project_key)
        else none
      aws :=
        if cfg.aws.enabled then some (get_cost_metrics m.aws t d.aws) else none
      railway :=
        if cfg.railway.enabled then
          some (get_deployment_metrics m.railway d.railway)
        else none }
  let envAfter :=
    if cfg.railway.enabled then
      { env with railway_project_id := some cfg.railway.project_id }
    else env
  (report, envAfter)

/-! ## Concrete fixtures used by witnesses and counterexamples -/

/-- Repository-metadata payload used in concrete runs. -/
def rd0 : RepoData :=
  { open_issues_count := 3, stargazers_count := 7, language := "Python"
    updated_at := "2024-01-01" }

/-- A GitHub configuration with a token and an organization. -/
def gCfg0 : GitHubCfg :=
  { token := some "tok", base_url := "https://api.github.com", org := "acme" }

/-- World in which every repository's metadata call succeeds but the commits
call returns HTTP 500 (its body would have held 5 commits). -/
def upPartial : String → RepoUpstream := fun _ =>
  { repoResp := .resp (200, "OK", rd0), commitsResp := .resp (500, 5)
    prsResp := .resp (200, 2) }

/-- Same world as `upPartial` except the commits call succeeds. -/
def upFull : String → RepoUpstream := fun _ =>
  { repoResp := .resp (200, "OK", rd0), commitsResp := .resp (200, 5)
    prsResp := .resp (200, 2) }

/-- World in which every repository's metadata call returns HTTP 404. -/
def up404 : String → RepoUpstream := fun _ =>
  { repoResp := .resp (404, "Not Found", rd0), commitsResp := .resp (200, 0)
    prsResp := .resp (200, 0) }

/-- A Jira configuration with full credentials. -/
def jCfg0 : JiraCfg :=
  { base_url := some "https://x.atlassian.net", email := some "cto@x.dev"
    token := some "jtok", project_key := "" }

/-- A 30-day search result with 20 issues, 15 of them resolved. -/
def issues20 : List Bool := List.replicate 15 true ++ List.replicate 5 false

/-- Jira upstream delivering `issues20`. -/
def jUp20 : JiraUpstream :=
  { projectResp := .resp (200, "Dashboard"), searchResp := .resp (200, "", issues20) }

/-- An AWS configuration with both credentials. -/
def aCfg0 : AwsCfg :=
  { access_key := some "AKIA", secret_key := some "SECRET", region := "us-east-1" }

/-- A small AWS upstream. -/
def awsUp0 : AwsUpstream :=
  { ce := .resp { dailyCosts := [("2026-10-11", 1)], serviceGroups := [("Amazon EC2", 10)] }
    lightsailReport := "lightsail", ec2Report := "ec2", rdsReport := "rds"
    route53Report := "route53", s3Report := "s3" }

/-- A Railway configuration with a token and a construction-time project id. -/
def rCfg0 : RailwayCfg :=
  { token := some "rtok", base_url := "https://backboard.railway.app/graphql"
    project_id := some "proj-0" }

/-- Railway upstream whose probe returns 404. -/
def rUp404 : RailwayUpstream :=
  { probe := .resp 404, graphql := .resp (.ok "P" []) }

/-- One complete world. -/
def world0 : WorldData :=
  { github := up404, jira := jUp20, aws := awsUp0, railway := rUp404 }

/-- A wall-clock instant. -/
def t0 : PyTime :=
  { iso := "2026-10-12T10:00:00.000001", day := "2026-10-12"
    dayMinus30 := "2026-09-12" }

/-- A second instant, a moment later on the same day. -/
def t1 : PyTime :=
  { iso := "2026-10-12T10:00:00.250000", day := "2026-10-12"
    dayMinus30 := "2026-09-12" }

/-- An initial process environment. -/
def env0 : Env := { railway_project_id := some "proj-0" }

/-- An aggregator built from the fixtures. -/
def m0 : MetricsAggregator :=
  { github := gCfg0, jira := jCfg0, aws := aCfg0, railway := rCfg0 }

/-- Assignment with only GitHub enabled, one repository `r1`. -/
def cfg404 : AssignmentConfig :=
  { id := some "a1"
    github := { enabled := true, repos := ["r1"], org := "acme" }
    jira := { enabled := false, project_key := "" }
    aws := { enabled := false }
    railway := { enabled := false, project_id := "" } }

/-- A GitHub configuration with no token. -/
def gNoTok : GitHubCfg :=
  { token := none, base_url := "https://api.github.com", org := "acme" }

/-- A Jira configuration with no credentials. -/
def jNoCred : JiraCfg :=
  { base_url := none, email := none, token := none, project_key := "P" }

/-- An AWS configuration with no credentials. -/
def aNoCred : AwsCfg :=
  { access_key := none, secret_key := none, region := "us-east-1" }

/-- A Railway configuration with no token. -/
def rNoTok : RailwayCfg :=
  { token := none, base_url := "https://backboard.railway.app/graphql"
    project_id := none }

/-- The assignment configuration with every service disabled. -/
def disableAll (cfg : AssignmentConfig) : AssignmentConfig :=
  { cfg with
    github := { cfg.github with enabled := false }
    jira := { cfg.jira with enabled := false }
    aws := { cfg.aws with enabled := false }
    railway := { cfg.railway with enabled := false } }

/-- A report with its timestamp blanked, for "equal except timestamp". -/
def eraseTimestamp (r : Report) : Report := { r with timestamp := "" }

/-! ## Helper lemmas -/

/-- Lemma: `pyMaxStep` returns one of its two arguments. -/
lemma pyMaxStep_eq_or (x y : String × ℚ) : pyMaxStep x y = x ∨ pyMaxStep x y = y := by
  unfold pyMaxStep
  by_cases h : x.2 < y.2 <;> simp [h]

/-- Both arguments of `pyMaxStep` are bounded by its result. -/
lemma le_pyMaxStep (x y : String × ℚ) :
    x.2 ≤ (pyMaxStep x y).2 ∧ y.2 ≤ (pyMaxStep x y).2 := by
  unfold pyMaxStep
  by_cases h : x.2 < y.2 <;> simp [h] <;> linarith

/-- The fold underlying `pyMax` yields an element of the candidate list. -/
lemma foldl_pyMaxStep_mem :
    ∀ (xs : List (String × ℚ)) (x : String × ℚ), xs.foldl pyMaxStep x ∈ x :: xs := by
  intro xs
  induction xs with
  | nil => intro x; simp
  | cons y ys ih =>
    intro x
    have h := ih (pyMaxStep x y)
    rcases pyMaxStep_eq_or x y with h1 | h1 <;>
      · simp only [List.foldl_cons]
        rcases List.mem_cons.mp h with h2 | h2 <;> simp [h1, h2] at * <;> tauto

/-- The fold underlying `pyMax` dominates every candidate. -/
lemma le_foldl_pyMaxStep :
    ∀ (xs : List (String × ℚ)) (x p : String × ℚ), p ∈ x :: xs →
      p.2 ≤ (xs.foldl pyMaxStep x).2 := by
  intro xs
  induction xs with
  | nil => intro x p hp; simp at hp; simp [hp]
  | cons y ys ih =>
    intro x p hp
    simp only [List.foldl_cons]
    rcases List.mem_cons.mp hp with h | h
    · calc p.2 ≤ (pyMaxStep x y).2 := h ▸ (le_pyMaxStep x y).1
        _ ≤ (ys.foldl pyMaxStep (pyMaxStep x y)).2 :=
          ih (pyMaxStep x y) _ (List.mem_cons_self _ _)
    · rcases List.mem_cons.mp h with h2 | h2
      · calc p.2 ≤ (pyMaxStep x y).2 := h2 ▸ (le_pyMaxStep x y).2
          _ ≤ (ys.foldl pyMaxStep (pyMaxStep x y)).2 :=
            ih (pyMaxStep x y) _ (List.mem_cons_self _ _)
      · exact ih (pyMaxStep x y) p (List.mem_cons_of_mem _ h2)

/-- Lemma: `pyMax` returns a maximal element of a non-empty list. -/
lemma pyMax_spec {sc : List (String × ℚ)} {m : String × ℚ}
    (h : pyMax sc = some m) : m ∈ sc ∧ ∀ p ∈ sc, p.2 ≤ m.2 := by
  match sc, h with
  | x :: xs, h =>
    have hm : xs.foldl pyMaxStep x = m := by simpa [pyMax] using h
    exact ⟨hm ▸ foldl_pyMaxStep_mem xs x, fun p hp => hm ▸ le_foldl_pyMaxStep xs x p hp⟩

/-- Lemma: `pyMax` is `none` exactly on the empty list. -/
lemma pyMax_eq_none {sc : List (String × ℚ)} (h : pyMax sc = none) : sc = [] := by
  cases sc with
  | nil => rfl
  | cons x xs => simp [pyMax] at h

/-- Lemma: `get_cost_metrics` depends on the clock only through the two
date strings that make up the `period` field. -/
lemma get_cost_metrics_day_congr (a : AwsCfg) (t₁ t₂ : PyTime) (u : AwsUpstream)
    (hday : t₁.day = t₂.day) (hday30 : t₁.dayMinus30 = t₂.dayMinus30) :
    get_cost_metrics a t₁ u = get_cost_metrics a t₂ u := by
  simp only [get_cost_metrics, getCostAnalysis, hday, hday30]

/-! ## Claim theorems -/

/-- C1: a report contains a result slot for a service exactly when that
service's `metrics_config` entry is enabled; disabled services are entirely
absent, and with every service disabled the report carries only the
timestamp and the assignment id. -/
theorem c1_report_slot_iff_enabled (m : MetricsAggregator) (cfg : AssignmentConfig)
    (env : Env) (w : PyTime → WorldData) (t : PyTime) :
    ((get_all_metrics m cfg env w t).1.github.isSome = cfg.github.enabled)
    ∧ ((get_all_metrics m cfg env w t).1.jira.isSome = cfg.jira.enabled)
    ∧ ((get_all_metrics m cfg env w t).1.aws.isSome = cfg.aws.enabled)
    ∧ ((get_all_metrics m cfg env w t).1.railway.isSome = cfg.railway.enabled)
    ∧ (get_all_metrics m cfg env w t).1.timestamp = t.iso
    ∧ (get_all_metrics m cfg env w t).1.assignment_id = cfg.id.getD "unknown"
    ∧ (get_all_metrics m (disableAll cfg) env w t).1
      = { timestamp := t.iso, assignment_id := cfg.id.getD "unknown",
          github := none, jira := none, aws := none, railway := none } := by
  refine ⟨?_, ?_, ?_, ?_, rfl, rfl, rfl⟩
  · by_cases h : cfg.github.enabled <;> simp [get_all_metrics, h]
  · by_cases h : cfg.jira.enabled <;> simp [get_all_metrics, h]
  · by_cases h : cfg.aws.enabled <;> simp [get_all_metrics, h]
  · by_cases h : cfg.railway.enabled <;> simp [get_all_metrics, h]

/-- C6: with a token configured, the Railway adapter probes first; the full
GraphQL query is attempted exactly when the probe comes back with a non-404
status, and a probe 404 or a probe exception yields the structured fallback
payload (with the attempted endpoint and the four remediation steps) without
the result depending on the GraphQL upstream at all. -/
theorem c6_probe_then_fallback (r : RailwayCfg) (u : RailwayUpstream)
    (htok : pyTruthy r.token = true) :
    (∀ s, u.probe = .resp s → s ≠ 404 →
        get_deployment_metrics r u = attempt_graphql_query r u.graphql)
    ∧ (u.probe = .resp 404 → get_deployment_metrics r u = .fallback (mkFallback r none))
    ∧ (∀ e, u.probe = .exn e →
        get_deployment_metrics r u
          = .fallback (mkFallback r (some ("Connection error: " ++ e))))
    ∧ (∀ g g', u.probe = .resp 404 ∨ (∃ e, u.probe = .exn e) →
        get_deployment_metrics r { u with graphql := g }
          = get_deployment_metrics r { u with graphql := g' })
    ∧ (∀ a, (mkFallback r a).attempted_endpoint = r.base_url
        ∧ (mkFallback r a).next_steps.length = 4
        ∧ (mkFallback r a).status = "api_unavailable") := by
  refine ⟨?_, ?_, ?_, ?_, fun a => ⟨rfl, rfl, rfl⟩⟩
  · intro s hs hneq
    simp [get_deployment_metrics, htok, hs, hneq]
  · intro hs
    simp [get_deployment_metrics, htok, hs]
  · intro e he
    simp [get_deployment_metrics, htok, he]
  · intro g g' hcase
    rcases hcase with h | ⟨e, h⟩ <;> simp [get_deployment_metrics, htok, h]

/-- C6 witness: with a concrete token and a probe returning 404, the adapter
returns the structured fallback. -/
theorem c6_probe_then_fallback_witness :
    get_deployment_metrics rCfg0 rUp404 = .fallback (mkFallback rCfg0 none) :=
  (c6_probe_then_fallback rCfg0 rUp404 rfl).2.1 rfl

/-- C7: each of the four adapters short-circuits on missing credentials:
it returns the corresponding failure value and its result does not depend
on the upstream world at all (no network call is made). -/
theorem c7_missing_config_short_circuits :
    (∀ (g : GitHubCfg), pyTruthy g.token = false →
       ∀ (up up' : String → RepoUpstream) (repo org : String),
         get_repo_metrics g up repo org = .failure ("GitHub token not configured")
         ∧ get_repo_metrics g up repo org = get_repo_metrics g up' repo org)
    ∧ (∀ (j : JiraCfg),
        (pyTruthy j.base_url && pyTruthy j.email && pyTruthy j.token) = false →
       ∀ (u u' : JiraUpstream) (pk : String),
         get_project_metrics j u pk = .failure ("Jira credentials not configured")
         ∧ get_project_metrics j u pk = get_project_metrics j u' pk)
    ∧ (∀ (a : AwsCfg), (pyTruthy a.access_key && pyTruthy a.secret_key) = false →
       ∀ (t : PyTime) (u u' : AwsUpstream),
         get_cost_metrics a t u = .failure ("AWS credentials not configured")
         ∧ get_cost_metrics a t u = get_cost_metrics a t u')
    ∧ (∀ (r : RailwayCfg), pyTruthy r.token = false →
       ∀ (u u' : RailwayUpstream),
         get_deployment_metrics r u
           = .missingToken ("Railway token not configured") "missing_token"
         ∧ get_deployment_metrics r u = get_deployment_metrics r u') := by
  refine ⟨?_, ?_, ?_, ?_⟩
  · intro g h up up' repo org
    constructor <;> simp [get_repo_metrics, h]
  · intro j h u u' pk
    constructor <;> simp [get_project_metrics, h]
  · intro a h t u u'
    constructor <;> simp [get_cost_metrics, h]
  · intro r h u u'
    constructor <;> simp [get_deployment_metrics, h]

/-- C7 witness: the four short-circuit failures at concrete inputs. -/
theorem c7_missing_config_short_circuits_witness :
    get_repo_metrics gNoTok up404 "r1" "acme" = .failure ("GitHub token not configured")
    ∧ get_project_metrics jNoCred jUp20 "P" = .failure ("Jira credentials not configured")
    ∧ get_cost_metrics aNoCred t0 awsUp0 = .failure ("AWS credentials not configured")
    ∧ get_deployment_metrics rNoTok rUp404
        = .missingToken ("Railway token not configured") "missing_token" := by
  have h := c7_missing_config_short_circuits
  exact ⟨(h.1 gNoTok rfl up404 up404 "r1" "acme").1,
         (h.2.1 jNoCred rfl jUp20 jUp20 "P").1,
         (h.2.2.1 aNoCred rfl t0 awsUp0 awsUp0).1,
         (h.2.2.2 rNoTok rfl rUp404 rUp404).1⟩

/-- C9: two aggregations over the same world data (and within the same
calendar day, so the derived 30-day window is identical) produce reports
that agree on every field except the timestamp. -/
theorem c9_aggregate_idempotent (m : MetricsAggregator) (cfg : AssignmentConfig)
    (env₁ env₂ : Env) (w : PyTime → WorldData) (t₁ t₂ : PyTime)
    (hw : w t₁ = w t₂) (hday : t₁.day = t₂.day)
    (hday30 : t₁.dayMinus30 = t₂.dayMinus30) :
    eraseTimestamp (get_all_metrics m cfg env₁ w t₁).1
      = eraseTimestamp (get_all_metrics m cfg env₂ w t₂).1
    ∧ (get_all_metrics m cfg env₁ w t₁).1.timestamp = t₁.iso
    ∧ (get_all_metrics m cfg env₂ w t₂).1.timestamp = t₂.iso := by
  refine ⟨?_, rfl, rfl⟩
  simp only [get_all_metrics, eraseTimestamp, hw]
  rw [get_cost_metrics_day_congr m.aws t₁ t₂ (w t₂).aws hday hday30]

/-- C9 witness: two concrete calls a quarter second apart over a constant
world give reports equal up to the timestamp. -/
theorem c9_aggregate_idempotent_witness :
    eraseTimestamp (get_all_metrics m0 cfg404 env0 (fun _ => world0) t0).1
      = eraseTimestamp (get_all_metrics m0 cfg404 env0 (fun _ => world0) t1).1 :=
  (c9_aggregate_idempotent m0 cfg404 env0 env0 (fun _ => world0) t0 t1 rfl rfl rfl).1

/-- C10: two assignment configurations differing only in
`metrics_config.railway.project_id` produce identical reports — the
aggregator writes the per-assignment project id into the environment, but
the railway adapter only ever uses the project id captured at construction,
also inside the fallback payload. -/
theorem c10_railway_project_id_not_read (m : MetricsAggregator)
    (cfg : AssignmentConfig) (env : Env) (w : PyTime → WorldData) (t : PyTime)
    (pid₁ pid₂ : String) :
    (get_all_metrics m { cfg with railway := { cfg.railway with project_id := pid₁ } } env w t).1
      = (get_all_metrics m { cfg with railway := { cfg.railway with project_id := pid₂ } } env w t).1
    ∧ (get_all_metrics m { cfg with railway := { cfg.railway with project_id := pid₁ } } env w t).2
      = (if cfg.railway.enabled then { env with railway_project_id := some pid₁ } else env)
    ∧ (∀ a, (mkFallback m.railway a).project_id = m.railway.project_id) := by
  exact ⟨rfl, rfl, fun a => rfl⟩

/-- Lemma: `get_repo_metrics` reads only the queried repository's upstream
responses. -/
lemma get_repo_metrics_congr (g : GitHubCfg) (up up' : String → RepoUpstream)
    (repo org : String) (h : up' repo = up repo) :
    get_repo_metrics g up' repo org = get_repo_metrics g up repo org := by
  unfold get_repo_metrics
  rw [h]

/-- C2: the source-control path yields exactly one outcome record per
configured repository in configuration order; changing one repository's
upstream does not alter the other repositories' records; a non-200 metadata
status yields the error record for that repository; and in the end-to-end
404 run the report's github slot is a one-element list whose error mentions
the 404 status, with all disabled services absent. -/
theorem c2_per_repo_isolation (g : GitHubCfg) (up up' : String → RepoUpstream)
    (repos : List String) (org r0 : String)
    (hagree : ∀ rp, rp ≠ r0 → up' rp = up rp) :
    (repos.map (fun rp => get_repo_metrics g up rp org)).length = repos.length
    ∧ (∀ rp ∈ repos, rp ≠ r0 →
        get_repo_metrics g up' rp org = get_repo_metrics g up rp org)
    ∧ (∀ s txt rd, (up r0).repoResp = .resp (s, txt, rd) → s ≠ 200 →
        pyTruthy g.token = true → effOrg g org ≠ "" →
        get_repo_metrics g up r0 org
          = .failureDebug ("GitHub API returned " ++ toString s ++ ": " ++ txt)
              (g.base_url ++ "/repos/" ++ effOrg g org ++ "/" ++ r0)
              (g.token.getD "").length (effOrg g org) r0)
    ∧ ((get_all_metrics m0 cfg404 env0 (fun _ => world0) t0).1.github
        = some [.failureDebug ("GitHub API returned 404: Not Found")
            ("https://api.github.com/repos/acme/r1") 3 "acme" "r1"]
       ∧ (get_all_metrics m0 cfg404 env0 (fun _ => world0) t0).1.jira = none
       ∧ (get_all_metrics m0 cfg404 env0 (fun _ => world0) t0).1.aws = none
       ∧ (get_all_metrics m0 cfg404 env0 (fun _ => world0) t0).1.railway = none) := by
  refine ⟨List.length_map _ _, ?_, ?_, rfl, rfl, rfl, rfl⟩
  · intro rp _ hne
    exact get_repo_metrics_congr g up up' rp org (hagree rp hne)
  · intro s txt rd hmeta hs htok horg
    simp [get_repo_metrics, htok, horg, hmeta, hs]

/-- C2 witness: the concrete 404 run through the adapter. -/
theorem c2_per_repo_isolation_witness :
    get_repo_metrics gCfg0 up404 "r1" "acme"
      = .failureDebug ("GitHub API returned 404: Not Found")
          ("https://api.github.com/repos/acme/r1") 3 "acme" "r1" := by
  have h := c2_per_repo_isolation gCfg0 up404 up404 ["r1"] "acme" "r1"
    (fun rp _ => rfl)
  exact h.2.2.1 404 "Not Found" rd0 rfl (by decide) rfl (by decide)

/-- C3: the issue-tracker adapter's resolution rate is
`round(resolved / total * 100, 1)` for a non-empty 30-day issue list and `0`
for an empty one (no division fault), with `total = 20, resolved = 15`
giving `75.0`. -/
theorem c3_resolution_rate (j : JiraCfg) (u : JiraUpstream) (pk : String)
    (issues : List Bool) (pstatus : Nat) (pname stext : String)
    (hcred : (pyTruthy j.base_url && pyTruthy j.email && pyTruthy j.token) = true)
    (hkey : effKey j pk ≠ "")
    (hproj : u.projectResp = .resp (pstatus, pname))
    (hsearch : u.searchResp = .resp (200, stext, issues)) :
    get_project_metrics j u pk
      = .success (effKey j pk) issues.length (issues.filter id).length
          (resolutionRate issues.length (issues.filter id).length)
          (if pstatus = 200 then pname else "Unknown")
    ∧ (issues.length = 0 →
        resolutionRate issues.length (issues.filter id).length = 0)
    ∧ (0 < issues.length →
        resolutionRate issues.length (issues.filter id).length
          = round1 (((issues.filter id).length : ℚ) / (issues.length : ℚ) * 100))
    ∧ resolutionRate 20 15 = 75
    ∧ resolutionRate 0 15 = 0 := by
  refine ⟨?_, ?_, ?_, ?_, ?_⟩
  · simp [get_project_metrics, hcred, hkey, hproj, hsearch]
  · intro h0
    simp [resolutionRate, h0]
  · intro hpos
    simp [resolutionRate, hpos]
  · norm_num [resolutionRate, round1, roundHalfEven]
  · simp [resolutionRate]

/-- C3 witness: a concrete 20-issue search with 15 resolved gives rate 75.0. -/
theorem c3_resolution_rate_witness :
    get_project_metrics jCfg0 jUp20 "PROJ" = .success "PROJ" 20 15 75 "Dashboard" := by
  have h := c3_resolution_rate jCfg0 jUp20 "PROJ" issues20 200 "Dashboard" ""
    rfl (by decide) rfl rfl
  have e2 : issues20.length = 20 := rfl
  have e3 : (issues20.filter id).length = 15 := rfl
  have e4 : resolutionRate 20 15 = 75 := by
    norm_num [resolutionRate, round1, roundHalfEven]
  rw [h.1, e2, e3, e4]
  rfl

/-- C8 counterexample: with the repository metadata call succeeding but the
commits call failing with HTTP 500 (its body would have held 5 commits), the
adapter still returns a success-shaped payload silently reporting 0 commits
— a partially populated payload, not a clean error — whereas the identical
world with the commits call succeeding reports 5.  This falsifies the claim
that a service's slot is always either fully populated or a clean error. -/
theorem c8_counterexample :
    get_repo_metrics gCfg0 upPartial "r1" ""
      = .success "r1" 0 2 3 7 "Python" "2024-01-01"
    ∧ (upPartial "r1").commitsResp = .resp (500, 5)
    ∧ get_repo_metrics gCfg0 upFull "r1" ""
      = .success "r1" 5 2 3 7 "Python" "2024-01-01" :=
  ⟨rfl, rfl, rfl⟩

/-- C8 (amended): a service's slot is success-shaped or an error value, but
the success payload can be partially populated — a failed commits or
pull-request sub-query silently degrades its count to 0, and a failed Jira
project-metadata sub-query silently degrades the project name to
"Unknown"; only the primary sub-query (repository metadata / issue search)
turns the slot into an error. -/
theorem c8_degraded_subqueries (g : GitHubCfg)
    (up : String → RepoUpstream) (repo org : String)
    (htok : pyTruthy g.token = true) (horg : effOrg g org ≠ "")
    (txt : String) (rd : RepoData) (cs ps cn pn : Nat)
    (hmeta : (up repo).repoResp = .resp (200, txt, rd))
    (hc : (up repo).commitsResp = .resp (cs, cn))
    (hp : (up repo).prsResp = .resp (ps, pn)) :
    get_repo_metrics g up repo org
      = .success repo (if cs = 200 then cn else 0) (if ps = 200 then pn else 0)
          rd.open_issues_count rd.stargazers_count rd.language rd.updated_at
    ∧ (∀ (j : JiraCfg) (u : JiraUpstream) (pk : String) (pstatus : Nat)
         (pname stext : String) (issues : List Bool),
        (pyTruthy j.base_url && pyTruthy j.email && pyTruthy j.token) = true →
        effKey j pk ≠ "" →
        u.projectResp = .resp (pstatus, pname) →
        u.searchResp = .resp (200, stext, issues) →
        get_project_metrics j u pk
          = .success (effKey j pk) issues.length (issues.filter id).length
              (resolutionRate issues.length (issues.filter id).length)
              (if pstatus = 200 then pname else "Unknown")) := by
  constructor
  · simp [get_repo_metrics, htok, horg, hmeta, hc, hp]
  · intro j u pk pstatus pname stext issues hcred hkey hproj hsearch
    simp [get_project_metrics, hcred, hkey, hproj, hsearch]

/-- C8 (amended) witness: the degraded concrete run. -/
theorem c8_degraded_subqueries_witness :
    get_repo_metrics gCfg0 upPartial "r1" ""
      = .success "r1" 0 2 3 7 "Python" "2024-01-01" := by
  have h := c8_degraded_subqueries gCfg0 upPartial "r1" "" rfl (by decide)
    "OK" rd0 500 200 5 2 rfl rfl rfl
  exact h.1

/-- C4 counterexample.  The claim requires trend = "decreasing" whenever the
plain sum of the most recent 7 days is not greater than that of the
preceding 7 days, and forbids any third value.  Both parts fail: on a series
with one negative day (an AWS credit) the main analyzer sums only positive
entries and answers "increasing" although the plain recent sum (-10) is far
below the previous sum (7); and the embedded analyzer answers "stable" on
two equal weeks (sum 70 each). -/
theorem c4_counterexample :
    weeklyTrend [1, 1, 1, 1, 1, 1, 1, 20, -30, 0, 0, 0, 0, 0] = "increasing"
    ∧ (recentWindow [1, 1, 1, 1, 1, 1, 1, 20, -30, 0, 0, 0, 0, 0]).sum = -10
    ∧ (previousWindow [1, 1, 1, 1, 1, 1, 1, 20, -30, 0, 0, 0, 0, 0]).sum = 7
    ∧ embeddedWeeklyTrend [10, 10, 10, 10, 10, 10, 10, 10, 10, 10, 10, 10, 10, 10]
        = "stable"
    ∧ ("stable" : String) ≠ "decreasing" ∧ ("stable" : String) ≠ "increasing" := by
  refine ⟨?_, ?_, ?_, ?_, by decide, by decide⟩
  · norm_num [weeklyTrend, recentWindow, previousWindow, posSum]
  · norm_num [recentWindow]
  · norm_num [previousWindow]
  · norm_num [embeddedWeeklyTrend, embeddedTrend]

/-- C4 (amended): the main analyzer's trend is "increasing" exactly when the
sum of the strictly positive entries of the most recent 7 days exceeds that
of the preceding 7 days, and "decreasing" otherwise (only those two values;
equal sums give "decreasing"); the embedded analyzer uses plain sums with a
±10% dead band and yields "stable" inside it (in particular on equal sums).
On the spec's example data (recent week 70, previous week 35 and the
reverse) both analyzers answer "increasing" and "decreasing" respectively. -/
theorem c4_amended_trend (ds : List ℚ) :
    (weeklyTrend ds = "increasing"
      ↔ posSum (previousWindow ds) < posSum (recentWindow ds))
    ∧ (weeklyTrend ds = "increasing" ∨ weeklyTrend ds = "decreasing")
    ∧ weeklyTrend [5, 5, 5, 5, 5, 5, 5, 10, 10, 10, 10, 10, 10, 10] = "increasing"
    ∧ weeklyTrend [10, 10, 10, 10, 10, 10, 10, 5, 5, 5, 5, 5, 5, 5] = "decreasing"
    ∧ embeddedWeeklyTrend [5, 5, 5, 5, 5, 5, 5, 10, 10, 10, 10, 10, 10, 10] = "increasing"
    ∧ embeddedWeeklyTrend [10, 10, 10, 10, 10, 10, 10, 5, 5, 5, 5, 5, 5, 5] = "decreasing"
    ∧ embeddedTrend 70 70 = "stable" := by
  refine ⟨?_, ?_, ?_, ?_, ?_, ?_, ?_⟩
  · unfold weeklyTrend
    by_cases h : posSum (previousWindow ds) < posSum (recentWindow ds) <;>
      simp [h]
  · unfold weeklyTrend
    by_cases h : posSum (previousWindow ds) < posSum (recentWindow ds) <;>
      simp [h]
  · norm_num [weeklyTrend, recentWindow, previousWindow, posSum]
  · norm_num [weeklyTrend, recentWindow, previousWindow, posSum]
  · norm_num [embeddedWeeklyTrend, embeddedTrend]
  · norm_num [embeddedWeeklyTrend, embeddedTrend]
  · norm_num [embeddedTrend]

/-- C4 (amended) witness: the positive-sum comparison at the spec's example
series, together with the trend it forces. -/
theorem c4_amended_trend_witness :
    posSum (previousWindow [5, 5, 5, 5, 5, 5, 5, 10, 10, 10, 10, 10, 10, 10])
      < posSum (recentWindow [5, 5, 5, 5, 5, 5, 5, 10, 10, 10, 10, 10, 10, 10])
    ∧ weeklyTrend [5, 5, 5, 5, 5, 5, 5, 10, 10, 10, 10, 10, 10, 10] = "increasing" := by
  have hlt : posSum (previousWindow
        ([5, 5, 5, 5, 5, 5, 5, 10, 10, 10, 10, 10, 10, 10] : List ℚ))
      < posSum (recentWindow [5, 5, 5, 5, 5, 5, 5, 10, 10, 10, 10, 10, 10, 10]) := by
    norm_num [recentWindow, previousWindow, posSum]
  exact ⟨hlt, (c4_amended_trend _).1.mpr hlt⟩

/-- For a positive total, a cost exceeds a 30% share exactly when it exceeds
`total * 0.3`. -/
lemma share_gt_30_iff (total c : ℚ) (h : 0 < total) :
    30 < c / total * 100 ↔ total * (3/10) < c := by
  rw [div_mul_eq_mul_div, lt_div_iff₀ h]
  constructor <;> intro <;> linarith

/-- C5: the embedded recommendation engine appends the targeted callout
(naming the most expensive service and its one-decimal percentage share)
exactly when some service's share of the total strictly exceeds 30%; with
total 1000 a 350 service elicits the 35.0% callout and a 290 one does not. -/
theorem c5_top_service_callout (total : ℚ) (sc : List (String × ℚ))
    (h : 0 < total) :
    (embeddedCostRecommendations total sc ≠ embeddedBaseRecommendations
      ↔ ∃ p ∈ sc, 30 < p.2 / total * 100)
    ∧ (∀ name c, pyMax sc = some (name, c) → 30 < c / total * 100 →
        embeddedCostRecommendations total sc
          = embeddedBaseRecommendations ++
            ["",
             "🔍 TOP SERVICE FOCUS: " ++ name ++ " accounts for "
               ++ fmt1 (c / total * 100) ++ "% of costs",
             "• Review " ++ name ++ " usage patterns and optimization opportunities"])
    ∧ embeddedCostRecommendations 1000 [("Amazon EC2", 350)]
        = embeddedBaseRecommendations ++
          ["", "🔍 TOP SERVICE FOCUS: Amazon EC2 accounts for 35.0% of costs",
           "• Review Amazon EC2 usage patterns and optimization opportunities"]
    ∧ embeddedCostRecommendations 1000 [("Amazon EC2", 290)]
        = embeddedBaseRecommendations := by
  refine ⟨⟨?_, ?_⟩, ?_, ?_, ?_⟩
  · intro hne
    rcases hm : pyMax sc with _ | ⟨name, c⟩
    · exact absurd (by simp [embeddedCostRecommendations, hm]) hne
    · by_cases hc : total * (3/10) < c
      · obtain ⟨hmem, -⟩ := pyMax_spec hm
        exact ⟨(name, c), hmem, (share_gt_30_iff total c h).mpr hc⟩
      · exact absurd (by simp [embeddedCostRecommendations, hm, hc]) hne
  · rintro ⟨p, hp, hshare⟩ heq
    rcases hm : pyMax sc with _ | ⟨name, c⟩
    · rw [pyMax_eq_none hm] at hp
      simp at hp
    · obtain ⟨-, hge⟩ := pyMax_spec hm
      have hc : total * (3/10) < c :=
        lt_of_lt_of_le ((share_gt_30_iff total p.2 h).mp hshare) (hge p hp)
      have hform : embeddedCostRecommendations total sc
          = embeddedBaseRecommendations ++
            ["",
             "🔍 TOP SERVICE FOCUS: " ++ name ++ " accounts for "
               ++ fmt1 (c / total * 100) ++ "% of costs",
             "• Review " ++ name ++ " usage patterns and optimization opportunities"] := by
        simp [embeddedCostRecommendations, hm, hc]
      rw [hform] at heq
      simpa using congrArg List.length heq
  · intro name c hm hshare
    have hc : total * (3/10) < c := (share_gt_30_iff total c h).mp hshare
    simp [embeddedCostRecommendations, hm, hc]
  · have hfmt : fmt1 ((350 : ℚ) / 1000 * 100) = "35.0" := by
      have h2 : roundHalfEven ((350 : ℚ) / 1000 * 100 * 10) = 350 := by
        norm_num [roundHalfEven]
      simp only [fmt1, h2]
      rfl
    have hc : ((350 : ℚ) > 1000 * (3/10)) := by norm_num
    simp [embeddedCostRecommendations, pyMax, hc, hfmt]
  · have hc : ¬ ((290 : ℚ) > 1000 * (3/10)) := by norm_num
    simp [embeddedCostRecommendations, pyMax, hc]

/-- C5 witness: the concrete 35% callout, obtained from the theorem. -/
theorem c5_top_service_callout_witness :
    embeddedCostRecommendations 1000 [("Amazon EC2", 350)]
      = embeddedBaseRecommendations ++
        ["", "🔍 TOP SERVICE FOCUS: Amazon EC2 accounts for 35.0% of costs",
         "• Review Amazon EC2 usage patterns and optimization opportunities"] :=
  (c5_top_service_callout 1000 [("Amazon EC2", 350)] (by norm_num)).2.2.1

end CTODash
